import Mathlib

/-!
Verification of client-side behaviors of the mon-service repository.

The definitions below are shallow embeddings of the TypeScript source:
  - src/frontend/stores/auth.ts        (zustand auth store)
  - src/frontend/stores/ui.ts          (zustand UI store)
  - the dashboard layout component     (DashboardLayout)
  - the API client                     (ApiClient: retry loop, token refresh)
  - the registration page              (validateForm / handleSubmit)
  - the availability mutation hook     (useUpdateMyAvailabilities)
  - the availability calendar          (calendarDays, handleDayClick, selectedCount)

JavaScript numbers are modeled as Int (integral state) or Rat (for the
backoff-delay arithmetic); JavaScript strings as String; absent / null values
as Option. Store actions become pure state-transition functions.
-/

set_option maxRecDepth 4000

/- ================================================================
   JavaScript value model (used where code reads a possibly-absent
   property off a plain object, as DashboardLayout does).
   ================================================================ -/

/-- A JavaScript runtime value, restricted to the shapes the embedded code
produces: undefined, null, a boolean, a string, or a (non-null) object. -/
inductive JsVal where
  | undefinedVal
  | nullv
  | bool (b : Bool)
  | str (s : String)
  | obj
deriving DecidableEq

/-- JavaScript truthiness for the values of JsVal. -/
def truthy : JsVal → Bool
  | .undefinedVal => false
  | .nullv => false
  | .bool b => b
  | .str s => s ≠ ""
  | .obj => true

/- ================================================================
   Auth store (src/frontend/stores/auth.ts)
   ================================================================ -/

/-- The User shape of the auth store (auth.ts lines 9-18). The role union
type is modeled as a String. -/
structure User where
  id : String
  email : String
  firstName : String
  lastName : String
  avatarUrl : Option String
  role : String
  organizationId : String
  isEmailVerified : Bool
deriving DecidableEq

/-- The state slice of AuthState (auth.ts lines 20-26): user, both tokens,
the authenticated flag and the loading flag. -/
structure AuthState where
  user : Option User
  accessToken : Option String
  refreshToken : Option String
  isAuthenticated : Bool
  isLoading : Bool
deriving DecidableEq

/-- Initial state of the auth store (auth.ts lines 51-56). -/
def authInitialState : AuthState :=
  { user := none
    accessToken := none
    refreshToken := none
    isAuthenticated := false
    isLoading := false }

/-- setUser action (auth.ts lines 59-63): stores the user and recomputes
isAuthenticated as the double-negation of the user value. -/
def setUser (s : AuthState) (u : Option User) : AuthState :=
  { s with user := u, isAuthenticated := u.isSome }

/-- setTokens action (auth.ts lines 65-69). -/
def setTokens (s : AuthState) (access refresh : String) : AuthState :=
  { s with accessToken := some access, refreshToken := some refresh }

/-- clearTokens action (auth.ts lines 71-75): nulls both tokens and nothing
else. -/
def clearTokens (s : AuthState) : AuthState :=
  { s with accessToken := none, refreshToken := none }

/-- setLoading action (auth.ts line 77). -/
def setLoading (s : AuthState) (b : Bool) : AuthState :=
  { s with isLoading := b }

/-- login action (auth.ts lines 79-86). -/
def login (s : AuthState) (u : User) (access refresh : String) : AuthState :=
  { s with
    user := some u
    accessToken := some access
    refreshToken := some refresh
    isAuthenticated := true
    isLoading := false }

/-- logout action (auth.ts lines 88-95). -/
def logout (s : AuthState) : AuthState :=
  { s with
    user := none
    accessToken := none
    refreshToken := none
    isAuthenticated := false
    isLoading := false }

/-- A Partial of User: every field optional, as in updateUser's argument. -/
structure UserPatch where
  id : Option String := none
  email : Option String := none
  firstName : Option String := none
  lastName : Option String := none
  avatarUrl : Option (Option String) := none
  role : Option String := none
  organizationId : Option String := none
  isEmailVerified : Option Bool := none
deriving DecidableEq

/-- Object-spread merge of a UserPatch over a User, as in the object literal
of updateUser. -/
def mergeUser (u : User) (p : UserPatch) : User :=
  { id := p.id.getD u.id
    email := p.email.getD u.email
    firstName := p.firstName.getD u.firstName
    lastName := p.lastName.getD u.lastName
    avatarUrl := p.avatarUrl.getD u.avatarUrl
    role := p.role.getD u.role
    organizationId := p.organizationId.getD u.organizationId
    isEmailVerified := p.isEmailVerified.getD u.isEmailVerified }

/-- updateUser action (auth.ts lines 97-100): merges the patch into the user
when one is present, keeps null otherwise; no other field changes. -/
def updateUser (s : AuthState) (p : UserPatch) : AuthState :=
  { s with user := s.user.map (fun u => mergeUser u p) }

/-- The invariant relating the authenticated flag to the user field. -/
def authInv (s : AuthState) : Prop :=
  s.isAuthenticated = s.user.isSome

instance (s : AuthState) : Decidable (authInv s) := by
  unfold authInv; infer_instance

/-- The slice the auth store persists across sessions (the persist
configuration of auth.ts lines 102-110): user, both tokens and the
authenticated flag. -/
structure AuthPersisted where
  user : Option User
  accessToken : Option String
  refreshToken : Option String
  isAuthenticated : Bool
deriving DecidableEq

/-- The persisted slice written by the auth store (auth.ts lines 104-109). -/
def authPersistedSlice (s : AuthState) : AuthPersisted :=
  { user := s.user
    accessToken := s.accessToken
    refreshToken := s.refreshToken
    isAuthenticated := s.isAuthenticated }

/-- Auth store state at the start of a fresh session: the persisted slice of
the previous session rehydrated over the initial state. -/
def authFreshSession (prev : AuthState) : AuthState :=
  { authInitialState with
    user := (authPersistedSlice prev).user
    accessToken := (authPersistedSlice prev).accessToken
    refreshToken := (authPersistedSlice prev).refreshToken
    isAuthenticated := (authPersistedSlice prev).isAuthenticated }

/- ================================================================
   Dashboard layout (the DashboardLayout component with sidebar
   navigation; its auth guard reads isAuthenticated, isLoading and
   hasHydrated off the auth store state)
   ================================================================ -/

/-- Property read on the auth store state object, as performed by the
object destructuring in DashboardLayout. The fields listed are exactly the
state fields AuthState declares; reading any other property of a JavaScript
object yields undefined. -/
def authStoreGet (s : AuthState) (key : String) : JsVal :=
  if key = "user" then (match s.user with | some _ => .obj | none => .nullv)
  else if key = "accessToken" then
    (match s.accessToken with | some t => .str t | none => .nullv)
  else if key = "refreshToken" then
    (match s.refreshToken with | some t => .str t | none => .nullv)
  else if key = "isAuthenticated" then .bool s.isAuthenticated
  else if key = "isLoading" then .bool s.isLoading
  else .undefinedVal

/-- What the dashboard layout renders. -/
inductive DashboardView where
  | loadingIndicator
  | empty
  | dashboard
deriving DecidableEq

/-- The redirect guard of DashboardLayout: the effect pushes /login exactly
when hasHydrated is truthy, isLoading is falsy and isAuthenticated is falsy. -/
def dashboardRedirectsToLogin (s : AuthState) : Bool :=
  truthy (authStoreGet s "hasHydrated")
    && !(truthy (authStoreGet s "isLoading"))
    && !(truthy (authStoreGet s "isAuthenticated"))

/-- The render branch of DashboardLayout: loading indicator while not
hydrated or loading, nothing when unauthenticated, the dashboard shell
otherwise. -/
def dashboardRender (s : AuthState) : DashboardView :=
  bif !(truthy (authStoreGet s "hasHydrated"))
      || truthy (authStoreGet s "isLoading") then
    .loadingIndicator
  else bif !(truthy (authStoreGet s "isAuthenticated")) then .empty
  else .dashboard

/- ================================================================
   UI store (src/frontend/stores/ui.ts)
   ================================================================ -/

/-- The theme union type of the UI store. -/
inductive Theme where
  | light
  | dark
  | system
deriving DecidableEq

/-- The state slice of UIState (ui.ts lines 9-25). The unknown-typed modal
payload is modeled as a JsVal. -/
structure UIState where
  isSidebarOpen : Bool
  isSidebarCollapsed : Bool
  activeModal : Option String
  modalData : JsVal
  notificationCount : Int
  theme : Theme
  globalLoading : Bool
deriving DecidableEq

/-- Initial state of the UI store (ui.ts lines 48-55). -/
def uiInitialState : UIState :=
  { isSidebarOpen := true
    isSidebarCollapsed := false
    activeModal := none
    modalData := .nullv
    notificationCount := 0
    theme := .system
    globalLoading := false }

/-- toggleSidebar action (ui.ts lines 58-61). -/
def toggleSidebar (s : UIState) : UIState :=
  { s with isSidebarOpen := !s.isSidebarOpen }

/-- setSidebarOpen action (ui.ts line 63). -/
def setSidebarOpen (s : UIState) (b : Bool) : UIState :=
  { s with isSidebarOpen := b }

/-- toggleSidebarCollapse action (ui.ts lines 65-68). -/
def toggleSidebarCollapse (s : UIState) : UIState :=
  { s with isSidebarCollapsed := !s.isSidebarCollapsed }

/-- setSidebarCollapsed action (ui.ts line 70). -/
def setSidebarCollapsed (s : UIState) (b : Bool) : UIState :=
  { s with isSidebarCollapsed := b }

/-- openModal action (ui.ts lines 73-77). -/
def openModal (s : UIState) (modalId : String) (data : JsVal) : UIState :=
  { s with activeModal := some modalId, modalData := data }

/-- closeModal action (ui.ts lines 79-83). -/
def closeModal (s : UIState) : UIState :=
  { s with activeModal := none, modalData := .nullv }

/-- setNotificationCount action (ui.ts line 86). -/
def setNotificationCount (s : UIState) (n : Int) : UIState :=
  { s with notificationCount := n }

/-- incrementNotificationCount action (ui.ts lines 88-91). -/
def incrementNotificationCount (s : UIState) : UIState :=
  { s with notificationCount := s.notificationCount + 1 }

/-- decrementNotificationCount action (ui.ts lines 93-96): clamps at zero
via Math.max. -/
def decrementNotificationCount (s : UIState) : UIState :=
  { s with notificationCount := max 0 (s.notificationCount - 1) }

/-- setTheme action (ui.ts line 99). -/
def setTheme (s : UIState) (t : Theme) : UIState :=
  { s with theme := t }

/-- setGlobalLoading action (ui.ts line 102). -/
def setGlobalLoading (s : UIState) (b : Bool) : UIState :=
  { s with globalLoading := b }

/-- UI store state at the start of a fresh session. The store creation in
ui.ts wraps the state only in devtools - there is no persist middleware at
all - so a new session always starts from the initial state regardless of
the previous session's state. -/
def uiFreshSession (_prev : UIState) : UIState := uiInitialState

/-- An increment or decrement step on the notification counter. -/
inductive CounterAction where
  | inc
  | dec
deriving DecidableEq

/-- Apply a sequence of increment/decrement actions to a UI state. -/
def applyCounterActions : List CounterAction → UIState → UIState
  | [], s => s
  | .inc :: rest, s => applyCounterActions rest (incrementNotificationCount s)
  | .dec :: rest, s => applyCounterActions rest (decrementNotificationCount s)

/- ================================================================
   API client (the ApiClient module: configuration defaults, the
   exponential-backoff delay, the retry loop of request, and the
   single-flight token-refresh handler)
   ================================================================ -/

/-- JavaScript or-with-default on a possibly absent number, as used by the
ApiClient constructor: a missing or zero (falsy) value falls back to the
default. -/
def jsOrNum (v : Option Nat) (d : Nat) : Nat :=
  match v with
  | some n => if n = 0 then d else n
  | none => d

/-- The resolved ApiClient configuration. URL handling (baseURL) is not
modeled; the claims under study do not involve it. -/
structure ApiClientConfig where
  defaultTimeout : Nat
  defaultRetries : Nat
  retryDelay : Nat
  retryStatusCodes : List Nat
deriving DecidableEq

/-- The optional constructor argument of ApiClient. -/
structure PartialClientConfig where
  defaultTimeout : Option Nat := none
  defaultRetries : Option Nat := none
  retryDelay : Option Nat := none
  retryStatusCodes : Option (List Nat) := none
deriving DecidableEq

/-- The ApiClient constructor: each field falls back to its default
(30000 ms timeout, 3 retries, 1000 ms base delay, and the retryable
status-code allow-list). -/
def mkApiClientConfig (c : Option PartialClientConfig) : ApiClientConfig :=
  { defaultTimeout := jsOrNum (c.bind (·.defaultTimeout)) 30000
    defaultRetries := jsOrNum (c.bind (·.defaultRetries)) 3
    retryDelay := jsOrNum (c.bind (·.retryDelay)) 1000
    retryStatusCodes := (c.bind (·.retryStatusCodes)).getD [408, 429, 500, 502, 503, 504] }

/-- The configuration of the singleton apiClient instance, constructed with
no argument. -/
def defaultClientConfig : ApiClientConfig := mkApiClientConfig none

/-- Per-request options (ApiRequestConfig plus the fetch method); absent
fields take the defaults applied by the destructuring at the top of
request. -/
structure ApiRequestConfig where
  method : String
  skipAuth : Bool := false
  retries : Option Nat := none
  retryDelay : Option Nat := none
  timeout : Option Nat := none
  skipRefresh : Bool := false
deriving DecidableEq

/-- The retries default of request: the explicit option if given, else the
client's default retry count for GET and zero for any other method. -/
def effectiveRetries (cfg : ApiClientConfig) (o : ApiRequestConfig) : Nat :=
  o.retries.getD (if o.method = "GET" then cfg.defaultRetries else 0)

/-- The timeout default of request. -/
def effectiveTimeout (cfg : ApiClientConfig) (o : ApiRequestConfig) : Nat :=
  o.timeout.getD cfg.defaultTimeout

/-- The base-retry-delay default of request. -/
def effectiveRetryDelay (cfg : ApiClientConfig) (o : ApiRequestConfig) : Nat :=
  o.retryDelay.getD cfg.retryDelay

/-- getRetryDelay: exponential backoff with jitter. The Math.random draw is
passed in explicitly as rand; JavaScript numbers are modeled as rationals. -/
def getRetryDelay (attempt : Nat) (baseDelay : Rat) (rand : Rat) : Rat :=
  let exponentialDelay := baseDelay * 2 ^ attempt
  let jitter := rand * (3 / 10) * exponentialDelay
  exponentialDelay + jitter

/-- One scripted outcome of a fetch call inside the retry loop of request:
an HTTP response with a status, an abort by the timeout controller, or a
network-level failure. -/
inductive FetchOutcome where
  | resp (status : Nat)
  | timedOut
  | netError
deriving DecidableEq

/-- The thrown ApiError, reduced to the fields the claims mention. -/
structure ApiErr where
  status : Nat
  retryable : Bool
deriving DecidableEq

/-- createApiError: the error carries the retryable classification passed in,
forced to true for the 500/502/503/504 statuses by the message-mapping
switch. -/
def createApiError (status : Nat) (retryable : Bool) : ApiErr :=
  { status := status
    retryable := retryable || [500, 502, 503, 504].contains status }

/-- Result of one run of request: resolved with a status, rejected with an
ApiError, or the scripted trace was exhausted before the loop finished. -/
inductive ReqOutcome where
  | success (status : Nat)
  | failure (e : ApiErr)
  | scriptEnded
deriving DecidableEq

/-- Observable trace of one run of request: its outcome, how many times the
refresh callback ran, whether the unauthorized/forbidden callbacks fired,
and the token generation attached to each fetch in order. -/
structure RunResult where
  outcome : ReqOutcome
  refreshCalls : Nat
  unauthorizedCalled : Bool
  forbiddenCalled : Bool
  sentTokens : List Nat
deriving DecidableEq

/-- The retry loop of request, driven by a scripted list of fetch outcomes
(one entry per fetch actually performed) and a scripted list of refresh
results (one entry per refresh call; true means the refresher returned new
tokens). The token attached to a fetch is modeled by a generation counter
that a successful refresh increments. Mirrors the control flow of the
source loop: a 2xx response resolves; a 401 (when a refresher is configured
and the request did not opt out) triggers a refresh and, on success, repeats
the fetch without consuming a retry attempt, while a failed refresh fires
the unauthorized callback and falls through to the (non-retryable) throw;
a 403 fires the forbidden callback and falls through; any other failure is
retried only while its status is in the allow-list (or it is a
timeout/network error) and attempts remain, and is thrown otherwise. -/
def requestLoop (cfg : ApiClientConfig) (hasRefresher skipRefresh : Bool)
    (retries : Nat) :
    Nat → Nat → List FetchOutcome → List Bool → RunResult
  | _, _, [], _ =>
    { outcome := .scriptEnded, refreshCalls := 0, unauthorizedCalled := false
      forbiddenCalled := false, sentTokens := [] }
  | attempt, tokenGen, o :: rest, refreshScript =>
    match o with
    | .resp status =>
      if 200 ≤ status ∧ status < 300 then
        { outcome := .success status, refreshCalls := 0
          unauthorizedCalled := false, forbiddenCalled := false
          sentTokens := [tokenGen] }
      else if status = 401 ∧ ¬skipRefresh ∧ hasRefresher then
        match refreshScript with
        | true :: rrest =>
          let res := requestLoop cfg hasRefresher skipRefresh retries
            attempt (tokenGen + 1) rest rrest
          { res with
            refreshCalls := res.refreshCalls + 1
            sentTokens := tokenGen :: res.sentTokens }
        | _ =>
          { outcome := .failure (createApiError 401 false), refreshCalls := 1
            unauthorizedCalled := true, forbiddenCalled := false
            sentTokens := [tokenGen] }
      else
        let isRetryable := cfg.retryStatusCodes.contains status
        if ¬isRetryable = true ∨ attempt = retries then
          { outcome := .failure (createApiError status isRetryable)
            refreshCalls := 0, unauthorizedCalled := false
            forbiddenCalled := status = 403, sentTokens := [tokenGen] }
        else
          let res := requestLoop cfg hasRefresher skipRefresh retries
            (attempt + 1) tokenGen rest refreshScript
          { res with
            forbiddenCalled := decide (status = 403) || res.forbiddenCalled
            sentTokens := tokenGen :: res.sentTokens }
    | .timedOut =>
      if attempt = retries then
        { outcome := .failure { status := 408, retryable := true }
          refreshCalls := 0, unauthorizedCalled := false
          forbiddenCalled := false, sentTokens := [tokenGen] }
      else
        let res := requestLoop cfg hasRefresher skipRefresh retries
          (attempt + 1) tokenGen rest refreshScript
        { res with sentTokens := tokenGen :: res.sentTokens }
    | .netError =>
      if attempt = retries then
        { outcome := .failure { status := 0, retryable := true }
          refreshCalls := 0, unauthorizedCalled := false
          forbiddenCalled := false, sentTokens := [tokenGen] }
      else
        let res := requestLoop cfg hasRefresher skipRefresh retries
          (attempt + 1) tokenGen rest refreshScript
        { res with sentTokens := tokenGen :: res.sentTokens }

/-- A full run of request: the loop starts at attempt zero with the current
token generation zero. -/
def runRequest (cfg : ApiClientConfig) (o : ApiRequestConfig)
    (hasRefresher : Bool) (script : List FetchOutcome)
    (refreshScript : List Bool) : RunResult :=
  requestLoop cfg hasRefresher o.skipRefresh (effectiveRetries cfg o)
    0 0 script refreshScript

/-- The single-flight state of handleTokenRefresh: whether a refresh promise
is currently in flight, and how many refresh calls have been started. -/
structure RefreshState where
  isRefreshing : Bool
  refreshCalls : Nat
deriving DecidableEq

/-- A request entering handleTokenRefresh: when a refresh is already in
flight it awaits the existing promise (no new refresh call), otherwise it
starts a new refresh. -/
def handleTokenRefreshEnter (s : RefreshState) : RefreshState :=
  if s.isRefreshing then s
  else { isRefreshing := true, refreshCalls := s.refreshCalls + 1 }

/-- k concurrent requests entering handleTokenRefresh one after another,
all before the in-flight refresh settles. -/
def enterAll : Nat → RefreshState → RefreshState
  | 0, s => s
  | k + 1, s => enterAll k (handleTokenRefreshEnter s)

/- ================================================================
   Registration page (the register screen: validateForm and
   handleSubmit)
   ================================================================ -/

/-- Whitespace for the JavaScript regex class backslash-s, restricted to the
ASCII range (space, tab, line feed, vertical tab, form feed, carriage
return); the inputs under study are ASCII. -/
def isJsSpace (c : Char) : Bool :=
  c = ' ' || c = '\t' || c = '\n' || c = '\x0b' || c = '\x0c' || c = '\r'

/-- Test of the email regex of validateForm (one or more non-space
characters, an at sign, one or more non-space characters, a dot, one or more
non-space characters, anywhere in the string). A match exists exactly when
some position i holds an at sign and some later position j holds a dot with
a non-space character directly before i, only non-space characters strictly
between i and j (at least one), and a non-space character directly after
j. -/
def emailRegexTest (s : String) : Bool :=
  let cs := s.toList
  let n := cs.length
  (List.range n).any fun i =>
    (List.range n).any fun j =>
      decide (cs.getD i ' ' = '@') && decide (cs.getD j ' ' = '.') &&
      decide (1 ≤ i) && decide (i + 2 ≤ j) && decide (j + 1 < n) &&
      !(isJsSpace (cs.getD (i - 1) ' ')) &&
      !(isJsSpace (cs.getD (j + 1) ' ')) &&
      ((List.range (j - (i + 1))).all fun k =>
        !(isJsSpace (cs.getD (i + 1 + k) ' ')))

/-- The registration form state. -/
structure RegisterForm where
  email : String
  password : String
  confirmPassword : String
  firstName : String
  lastName : String
deriving DecidableEq

/-- The error record validateForm builds: one optional message key per
field. -/
structure RegisterErrors where
  firstName : Option String
  lastName : Option String
  email : Option String
  password : Option String
  confirmPassword : Option String
deriving DecidableEq

/-- The error assignments of validateForm: empty first/last name, empty or
regex-failing email, empty or shorter-than-8 password, and a confirmation
differing from the password. String length counts characters, which agrees
with the JavaScript length for the ASCII inputs under study. -/
def validateFormErrors (f : RegisterForm) : RegisterErrors :=
  { firstName := if f.firstName = "" then some "emailRequired" else none
    lastName := if f.lastName = "" then some "emailRequired" else none
    email :=
      if f.email = "" then some "emailRequired"
      else if ¬emailRegexTest f.email then some "invalidEmail"
      else none
    password :=
      if f.password = "" then some "passwordRequired"
      else if f.password.length < 8 then some "passwordMin"
      else none
    confirmPassword :=
      if f.password ≠ f.confirmPassword then some "passwordMismatch"
      else none }

/-- validateForm returns true exactly when the error record is empty. -/
def validateForm (f : RegisterForm) : Bool :=
  (validateFormErrors f).firstName.isNone &&
  (validateFormErrors f).lastName.isNone &&
  (validateFormErrors f).email.isNone &&
  (validateFormErrors f).password.isNone &&
  (validateFormErrors f).confirmPassword.isNone

/-- handleSubmit issues the register request exactly when validateForm
passed (it returns early otherwise). -/
def handleSubmitSendsRegister (f : RegisterForm) : Bool :=
  validateForm f

/- ================================================================
   Availability mutation hook (useUpdateMyAvailabilities) over the
   query-cache operations it uses
   ================================================================ -/

/-- One entry of the unavailableDates list of the mutation payload. -/
structure UnavailableDate where
  date : String
  reason : Option String
  isAllDay : Bool
deriving DecidableEq

/-- The cached my-availabilities object. -/
structure AvailabilityData where
  memberId : String
  memberName : String
  year : Int
  month : Int
  unavailableDates : List UnavailableDate
deriving DecidableEq

/-- The mutation variables of useUpdateMyAvailabilities. -/
structure UpdatePayload where
  year : Int
  month : Int
  unavailableDates : List UnavailableDate
deriving DecidableEq

/-- A structured query key, as used by the query cache. -/
abbrev QueryKey := List String

/-- The availability slice of the query cache together with the list of
keys invalidated so far. -/
structure QueryCacheState where
  cache : List (QueryKey × AvailabilityData)
  invalidated : List QueryKey
deriving DecidableEq

/-- getQueryData: the cached value under a key, if any. -/
def getQueryData (c : List (QueryKey × AvailabilityData)) (k : QueryKey) :
    Option AvailabilityData :=
  (c.find? (fun p => decide (p.1 = k))).map (·.2)

/-- setQueryData: replace the entry under the key when present, insert it
otherwise. -/
def setQueryData (c : List (QueryKey × AvailabilityData)) (k : QueryKey)
    (v : AvailabilityData) : List (QueryKey × AvailabilityData) :=
  if (c.find? (fun p => decide (p.1 = k))).isSome then
    c.map (fun p => if p.1 = k then (k, v) else p)
  else
    (k, v) :: c

/-- invalidateQueries: record the key as invalidated (marking it for
refetch). -/
def invalidateQueries (st : QueryCacheState) (k : QueryKey) :
    QueryCacheState :=
  { st with invalidated := st.invalidated ++ [k] }

/-- String.padStart with width two and pad character zero. -/
def padStart2 (s : String) : String :=
  if 2 ≤ s.length then s else String.mk (List.replicate (2 - s.length) '0') ++ s

/-- Decimal digit character for a value below ten. -/
def natDigitChar (n : Nat) : Char := Char.ofNat (48 + n)

/-- Decimal digit expansion, most significant digit first, driven by a fuel
bound so the recursion is structural (any fuel above the value works). -/
def natToDigitsF : Nat → Nat → List Char
  | 0, _ => []
  | fuel + 1, n =>
    if n < 10 then [natDigitChar n]
    else natToDigitsF fuel (n / 10) ++ [natDigitChar (n % 10)]

/-- Decimal digit expansion of a natural number. -/
def natToDigits (n : Nat) : List Char := natToDigitsF (n + 1) n

/-- Decimal rendering of a natural number (the JavaScript String
conversion). -/
def natToString (n : Nat) : String := String.mk (natToDigits n)

/-- Decimal rendering of an integer. -/
def intToString (i : Int) : String :=
  if i < 0 then "-" ++ natToString (-i).toNat else natToString i.toNat

/-- The template literal building the month segment of the availability
query keys: the year, a dash, and the zero-padded month. -/
def monthKeyStr (year month : Int) : String :=
  intToString year ++ "-" ++ padStart2 (intToString month)

/-- The my-availabilities query key of useUpdateMyAvailabilities. -/
def myAvailabilitiesKey (departmentId : String) (year month : Int) :
    QueryKey :=
  ["my-availabilities", departmentId, monthKeyStr year month]

/-- queryKeys.availabilities.department from the query-key factory. -/
def departmentAvailabilitiesKey (deptId : String) (month : String) :
    QueryKey :=
  ["availabilities", "department", deptId, month]

/-- onMutate of useUpdateMyAvailabilities: snapshot the previous value and
optimistically write the submitted dates; when no (object) value is cached
a placeholder object carrying the submitted dates is written. Returns the
updated state with the context (previous value and key). -/
def onMutateOptimistic (st : QueryCacheState) (departmentId : String)
    (newData : UpdatePayload) :
    QueryCacheState × Option AvailabilityData × QueryKey :=
  let queryKey := myAvailabilitiesKey departmentId newData.year newData.month
  let previousData := getQueryData st.cache queryKey
  let updated :=
    match previousData with
    | none =>
      { memberId := "", memberName := "", year := newData.year
        month := newData.month
        unavailableDates := newData.unavailableDates : AvailabilityData }
    | some old => { old with unavailableDates := newData.unavailableDates }
  ({ st with cache := setQueryData st.cache queryKey updated },
    previousData, queryKey)

/-- onError of useUpdateMyAvailabilities: write the snapshot back, but only
when the snapshot was not undefined. -/
def onErrorRollback (st : QueryCacheState)
    (previousData : Option AvailabilityData) (queryKey : QueryKey) :
    QueryCacheState :=
  match previousData with
  | some v => { st with cache := setQueryData st.cache queryKey v }
  | none => st

/-- onSettled of useUpdateMyAvailabilities: invalidate the member's own and
the department's availability keys for the submitted month, in both the
success and the failure case. -/
def onSettledInvalidate (st : QueryCacheState) (departmentId : String)
    (vars : UpdatePayload) : QueryCacheState :=
  let monthStr := monthKeyStr vars.year vars.month
  invalidateQueries
    (invalidateQueries st ["my-availabilities", departmentId, monthStr])
    (departmentAvailabilitiesKey departmentId monthStr)

/-- A full settled run of the useUpdateMyAvailabilities mutation: the
optimistic update, then the rollback when the server rejected, then the
unconditional invalidation. -/
def runUpdateMyAvailabilities (st : QueryCacheState) (departmentId : String)
    (newData : UpdatePayload) (serverRejects : Bool) : QueryCacheState :=
  let r := onMutateOptimistic st departmentId newData
  let st2 := if serverRejects then onErrorRollback r.1 r.2.1 r.2.2 else r.1
  onSettledInvalidate st2 departmentId newData

/- ================================================================
   Availability calendar
   (src/frontend/components/calendar/availability-calendar.tsx)
   ================================================================ -/

/-- A civil calendar date (month 1 to 12), the value the JavaScript Date
objects of the calendar denote (all of them sit at local midnight). -/
structure CivilDate where
  year : Int
  month : Int
  day : Int
deriving DecidableEq

/-- Serial day number of a civil date (days since 1970-01-01), the standard
era-based conversion. -/
def daysFromCivil (y m d : Int) : Int :=
  let y := if m ≤ 2 then y - 1 else y
  let era := Int.fdiv y 400
  let yoe := y - era * 400
  let mp := if 2 < m then m - 3 else m + 9
  let doy := Int.fdiv (153 * mp + 2) 5 + d - 1
  let doe := yoe * 365 + Int.fdiv yoe 4 - Int.fdiv yoe 100 + doy
  era * 146097 + doe - 719468

/-- Civil date of a serial day number, the inverse era-based conversion. -/
def civilFromDays (z0 : Int) : CivilDate :=
  let z := z0 + 719468
  let era := Int.fdiv z 146097
  let doe := z - era * 146097
  let yoe := Int.fdiv
    (doe - Int.fdiv doe 1460 + Int.fdiv doe 36524 - Int.fdiv doe 146096) 365
  let y := yoe + era * 400
  let doy := doe - (365 * yoe + Int.fdiv yoe 4 - Int.fdiv yoe 100)
  let mp := Int.fdiv (5 * doy + 2) 153
  let d := doy - Int.fdiv (153 * mp + 2) 5 + 1
  let m := if mp < 10 then mp + 3 else mp - 9
  { year := if m ≤ 2 then y + 1 else y, month := m, day := d }

/-- The JavaScript Date constructor new Date(year, monthIndex, day):
the zero-based month index and the day are normalized by rolling over
(month index minus one reaches the previous year's December, day zero the
last day of the previous month, and so on). -/
def jsDate (year monthIndex day : Int) : CivilDate :=
  let y := year + Int.fdiv monthIndex 12
  let m := Int.emod monthIndex 12 + 1
  civilFromDays (daysFromCivil y m 1 + (day - 1))

/-- The JavaScript getDay accessor: day of week with zero for Sunday. -/
def getDay (d : CivilDate) : Int :=
  Int.emod (daysFromCivil d.year d.month d.day + 4) 7

/-- isSameDay of the calendar component: equality of year, month and
day. -/
def isSameDay (a b : CivilDate) : Bool :=
  decide (a.year = b.year) && decide (a.month = b.month) &&
  decide (a.day = b.day)

/-- Comparison of the two midnight Date values, which orders exactly as the
serial day numbers. -/
def dateLt (a b : CivilDate) : Bool :=
  decide (daysFromCivil a.year a.month a.day <
    daysFromCivil b.year b.month b.day)

/-- formatDateISO: year, dash, zero-padded month, dash, zero-padded day. -/
def formatDateISO (d : CivilDate) : String :=
  intToString d.year ++ "-" ++ padStart2 (intToString d.month) ++ "-" ++
    padStart2 (intToString d.day)

/-- The per-cell information record of the calendar grid. -/
structure DayInfo where
  date : CivilDate
  dayOfMonth : Int
  dateString : String
  isCurrentMonth : Bool
  isPast : Bool
  isToday : Bool
  isSelected : Bool
  isDisabled : Bool
deriving DecidableEq

/-- The calendarDays grid of the component: cells of the previous month
filling the first week (always disabled), the days of the displayed month
(disabled when past or once the deadline passed), and cells of the next
month completing the 6-by-7 grid (always disabled). The selected-dates set
is modeled as a list of date strings. -/
def calendarDays (year month : Int) (selectedDates : List String)
    (today : CivilDate) (isDeadlinePassed : Bool) : List DayInfo :=
  let firstDay := jsDate year (month - 1) 1
  let lastDay := jsDate year month 0
  let w := getDay firstDay
  let startDayOfWeek := if w = 0 then 6 else w - 1
  let prevMonthLastDay := jsDate year (month - 1) 0
  let prevDays := (List.range startDayOfWeek.toNat).map (fun j =>
    let i : Int := startDayOfWeek - 1 - j
    let date := jsDate year (month - 2) (prevMonthLastDay.day - i)
    { date := date
      dayOfMonth := date.day
      dateString := formatDateISO date
      isCurrentMonth := false
      isPast := dateLt date today && !(isSameDay date today)
      isToday := isSameDay date today
      isSelected := selectedDates.contains (formatDateISO date)
      isDisabled := true : DayInfo })
  let currentDays := (List.range lastDay.day.toNat).map (fun k =>
    let day : Int := (k : Int) + 1
    let date := jsDate year (month - 1) day
    let isPast := dateLt date today && !(isSameDay date today)
    { date := date
      dayOfMonth := day
      dateString := formatDateISO date
      isCurrentMonth := true
      isPast := isPast
      isToday := isSameDay date today
      isSelected := selectedDates.contains (formatDateISO date)
      isDisabled := isPast || isDeadlinePassed : DayInfo })
  let soFar := prevDays ++ currentDays
  let nextDays := (List.range (42 - soFar.length)).map (fun k =>
    let day : Int := (k : Int) + 1
    let date := jsDate year month day
    { date := date
      dayOfMonth := day
      dateString := formatDateISO date
      isCurrentMonth := false
      isPast := false
      isToday := isSameDay date today
      isSelected := selectedDates.contains (formatDateISO date)
      isDisabled := true : DayInfo })
  soFar ++ nextDays

/-- handleDayClick: a disabled or adjacent-month cell leaves the selection
unchanged; otherwise the cell's date string is toggled in the selection
set. -/
def handleDayClick (day : DayInfo) (selectedDates : List String) :
    List String :=
  if day.isDisabled || !day.isCurrentMonth then selectedDates
  else if selectedDates.contains day.dateString then
    selectedDates.filter (fun s => !(s == day.dateString))
  else selectedDates ++ [day.dateString]

/-- handleKeyDown: Enter and Space activate the cell via handleDayClick;
every other key leaves the selection unchanged. -/
def handleKeyDown (key : String) (day : DayInfo)
    (selectedDates : List String) : List String :=
  if key == "Enter" || key == " " then handleDayClick day selectedDates
  else selectedDates

/-- Split a character list on a separator character (the JavaScript String
split on a one-character separator). -/
def splitOnChar (sep : Char) : List Char → List (List Char)
  | [] => [[]]
  | c :: rest =>
    if c = sep then [] :: splitOnChar sep rest
    else
      match splitOnChar sep rest with
      | [] => [[c]]
      | g :: gs => (c :: g) :: gs

/-- Value of a decimal digit list (most significant first). -/
def digitsToNat (cs : List Char) : Nat :=
  cs.foldl (fun acc c => acc * 10 + (c.toNat - 48)) 0

/-- Whether a character is a decimal digit. -/
def isDigitChar (c : Char) : Bool := decide ('0' ≤ c) && decide (c ≤ '9')

/-- The JavaScript Number conversion on the strings fed to it by
selectedCount (segments of date strings): the empty string converts to
zero, a plain digit string to its value, anything else to NaN (modeled as
none). -/
def jsNumberL (cs : List Char) : Option Int :=
  if cs = [] then some 0
  else if cs.all isDigitChar then some (Int.ofNat (digitsToNat cs))
  else none

/-- The per-date test of selectedCount: split the date string on dashes,
Number-convert the first two segments (a missing segment is undefined and
converts to NaN), and compare both against the displayed year and month
under strict equality (never true for NaN). -/
def monthMatches (dateStr : String) (year month : Int) : Bool :=
  let parts := splitOnChar '-' dateStr.toList
  let yv : Option Int := match parts with
    | p :: _ => jsNumberL p
    | [] => none
  let mv : Option Int := match parts with
    | _ :: p :: _ => jsNumberL p
    | _ => none
  decide (yv = some year) && decide (mv = some month)

/-- selectedCount: fold over the selected dates counting those whose parsed
year and month equal the displayed ones. -/
def selectedCount (selectedDates : List String) (year month : Int) : Nat :=
  selectedDates.foldl
    (fun count dateStr =>
      if monthMatches dateStr year month then count + 1 else count) 0

/-- Validity bound needed for the round trip between formatDateISO and the
parsing in selectedCount: nonnegative fields (every date the calendar
produces satisfies it). -/
def dateNonneg (d : CivilDate) : Prop :=
  0 ≤ d.year ∧ 0 ≤ d.month ∧ 0 ≤ d.day

instance (d : CivilDate) : Decidable (dateNonneg d) := by
  unfold dateNonneg; infer_instance

/- ================================================================
   Helper lemmas
   ================================================================ -/

theorem counterActions_nonneg (acts : List CounterAction) :
    ∀ s : UIState, 0 ≤ s.notificationCount →
      0 ≤ (applyCounterActions acts s).notificationCount := by
  induction acts with
  | nil => intro s hs; simpa [applyCounterActions] using hs
  | cons a rest ih =>
    intro s hs
    cases a with
    | inc =>
      refine ih _ ?_
      simp only [incrementNotificationCount]
      omega
    | dec =>
      refine ih _ ?_
      simp only [decrementNotificationCount]
      exact le_max_left 0 _

theorem enterAll_refreshing (k : Nat) :
    ∀ c : Nat, enterAll k ⟨true, c⟩ = ⟨true, c⟩ := by
  induction k with
  | zero => intro c; rfl
  | succ j ih =>
    intro c
    simp only [enterAll, handleTokenRefreshEnter]
    exact ih c

/- ================================================================
   Claim theorems
   ================================================================ -/

/-- Claim C1. The spec states that an unauthenticated visitor of a dashboard
route is redirected to login once the auth store's hydration finishes, with
a loading state shown during the hydration window. The dashboard layout
destructures hasHydrated off the auth store state, but the auth store
declares no such field, so the read is always undefined: as a consequence
the layout renders the loading indicator in every state and the redirect
guard never fires, for any store state whatsoever - the code never performs
the redirect the spec describes. -/
theorem claim_C1_dashboard_guard_never_redirects :
    ∀ s : AuthState,
      authStoreGet s "hasHydrated" = JsVal.undefinedVal ∧
      dashboardRedirectsToLogin s = false ∧
      dashboardRender s = DashboardView.loadingIndicator := by
  intro s
  exact ⟨rfl, rfl, rfl⟩

/-- Claim C3. The spec states the UI store persists exactly the theme and
the sidebar-collapsed preference. The UI store is created with the devtools
wrapper only - unlike the auth store there is no persist middleware - so a
fresh session starts from the initial state and neither the theme nor the
sidebar-collapsed flag survives: here a previous session ending with the
dark theme and a collapsed sidebar yields a fresh session with the system
theme and an uncollapsed sidebar. -/
theorem claim_C3_ui_store_persists_nothing :
    (uiFreshSession { uiInitialState with
        theme := .dark, isSidebarCollapsed := true }).theme ≠ Theme.dark ∧
    (uiFreshSession { uiInitialState with
        theme := .dark, isSidebarCollapsed := true }).isSidebarCollapsed
      ≠ true ∧
    (∀ prev : UIState, uiFreshSession prev = uiInitialState) ∧
    authFreshSession authInitialState = authInitialState := by
  exact ⟨by decide, by decide, fun _ => rfl, rfl⟩

/-- Claim C9. In the auth store, isAuthenticated equals the presence of the
user in the initial state and after every action (setUser, setTokens,
clearTokens, setLoading, login, logout, updateUser); clearTokens in
particular changes neither the authenticated flag nor the user. -/
theorem claim_C9_auth_invariant :
    authInv authInitialState ∧
    ∀ s : AuthState, authInv s →
      ∀ (ou : Option User) (u : User) (a r : String) (b : Bool)
        (p : UserPatch),
        authInv (setUser s ou) ∧ authInv (setTokens s a r) ∧
        authInv (clearTokens s) ∧ authInv (setLoading s b) ∧
        authInv (login s u a r) ∧ authInv (logout s) ∧
        authInv (updateUser s p) ∧
        (clearTokens s).isAuthenticated = s.isAuthenticated ∧
        (clearTokens s).user = s.user := by
  refine ⟨rfl, ?_⟩
  intro s hs ou u a r b p
  refine ⟨rfl, hs, hs, hs, rfl, rfl, ?_, rfl, rfl⟩
  simp only [authInv, updateUser, Option.isSome_map']
  exact hs

/-- Sample user for witnesses. -/
def sampleUser : User :=
  { id := "u1"
    email := "a@b.c"
    firstName := "Jean"
    lastName := "Dupont"
    avatarUrl := none
    role := "member"
    organizationId := "o1"
    isEmailVerified := true }

/-- Witness for claim C9 at the initial state. -/
theorem claim_C9_auth_invariant_witness :
    authInv authInitialState ∧
    (authInv (setUser authInitialState (some sampleUser)) ∧
      authInv (setTokens authInitialState "a" "r") ∧
      authInv (clearTokens authInitialState) ∧
      authInv (setLoading authInitialState true) ∧
      authInv (login authInitialState sampleUser "a" "r") ∧
      authInv (logout authInitialState) ∧
      authInv (updateUser authInitialState {}) ∧
      (clearTokens authInitialState).isAuthenticated
        = authInitialState.isAuthenticated ∧
      (clearTokens authInitialState).user = authInitialState.user) :=
  ⟨claim_C9_auth_invariant.1,
    claim_C9_auth_invariant.2 authInitialState (by decide)
      (some sampleUser) sampleUser "a" "r" true {}⟩

/-- Claim C10. decrementNotificationCount sets the counter to the maximum
of zero and its predecessor and changes no other field; consequently from
any nonnegative counter no sequence of increments and decrements drives the
counter negative. -/
theorem claim_C10_notification_counter :
    (∀ s : UIState,
      (decrementNotificationCount s).notificationCount
          = max 0 (s.notificationCount - 1) ∧
      (decrementNotificationCount s).isSidebarOpen = s.isSidebarOpen ∧
      (decrementNotificationCount s).isSidebarCollapsed
          = s.isSidebarCollapsed ∧
      (decrementNotificationCount s).activeModal = s.activeModal ∧
      (decrementNotificationCount s).modalData = s.modalData ∧
      (decrementNotificationCount s).theme = s.theme ∧
      (decrementNotificationCount s).globalLoading = s.globalLoading) ∧
    ∀ s : UIState, 0 ≤ s.notificationCount →
      ∀ acts : List CounterAction,
        0 ≤ (applyCounterActions acts s).notificationCount := by
  refine ⟨fun s => ⟨rfl, rfl, rfl, rfl, rfl, rfl, rfl⟩, ?_⟩
  intro s hs acts
  exact counterActions_nonneg acts s hs

/-- Witness for claim C10 at the initial UI state with two decrements then
an increment. -/
theorem claim_C10_notification_counter_witness :
    0 ≤ uiInitialState.notificationCount ∧
    0 ≤ (applyCounterActions [.dec, .dec, .inc]
        uiInitialState).notificationCount :=
  ⟨by decide,
    claim_C10_notification_counter.2 uiInitialState (by decide)
      [.dec, .dec, .inc]⟩

/-- Claim C8. The computed retry backoff delay for attempt n and base delay
d with a random draw r in the unit half-open interval equals d times two to
the n plus a jitter of r times three tenths of that value, hence lies in
the half-open interval from the exponential delay to thirteen tenths of
it. -/
theorem claim_C8_retry_delay_bounds :
    ∀ (attempt : Nat) (baseDelay rand : Rat),
      0 < baseDelay → 0 ≤ rand → rand < 1 →
      getRetryDelay attempt baseDelay rand
          = baseDelay * 2 ^ attempt
            + rand * (3 / 10) * (baseDelay * 2 ^ attempt) ∧
      0 ≤ rand * (3 / 10) * (baseDelay * 2 ^ attempt) ∧
      rand * (3 / 10) * (baseDelay * 2 ^ attempt)
          < (3 / 10) * (baseDelay * 2 ^ attempt) ∧
      baseDelay * 2 ^ attempt ≤ getRetryDelay attempt baseDelay rand ∧
      getRetryDelay attempt baseDelay rand
          < (13 / 10) * (baseDelay * 2 ^ attempt) := by
  intro n d r hd hr hr1
  have he : (0 : Rat) < d * 2 ^ n := by positivity
  have hj0 : (0 : Rat) ≤ r * (3 / 10) * (d * 2 ^ n) := by
    have h3 : (0 : Rat) ≤ (3 / 10) := by norm_num
    exact mul_nonneg (mul_nonneg hr h3) (le_of_lt he)
  have hjlt : r * (3 / 10) * (d * 2 ^ n) < (3 / 10) * (d * 2 ^ n) := by
    nlinarith
  refine ⟨rfl, hj0, hjlt, ?_, ?_⟩
  · show d * 2 ^ n ≤ d * 2 ^ n + r * (3 / 10) * (d * 2 ^ n)
    linarith
  · show d * 2 ^ n + r * (3 / 10) * (d * 2 ^ n)
        < (13 / 10) * (d * 2 ^ n)
    nlinarith

/-- Witness for claim C8 at attempt two, base delay 1000 and random draw
one half. -/
theorem claim_C8_retry_delay_bounds_witness :
    (0 : Rat) < 1000 ∧ (0 : Rat) ≤ 1 / 2 ∧ (1 / 2 : Rat) < 1 ∧
    1000 * 2 ^ 2 ≤ getRetryDelay 2 1000 (1 / 2) ∧
    getRetryDelay 2 1000 (1 / 2) < (13 / 10) * (1000 * 2 ^ 2) :=
  ⟨by norm_num, by norm_num, by norm_num,
    (claim_C8_retry_delay_bounds 2 1000 (1 / 2) (by norm_num) (by norm_num)
      (by norm_num)).2.2.2.1,
    (claim_C8_retry_delay_bounds 2 1000 (1 / 2) (by norm_num) (by norm_num)
      (by norm_num)).2.2.2.2⟩

/-- One-step reduction of the retry loop on a 401 answered by a successful
refresh: the fetch repeats with the next token generation and the same
attempt counter, and the refresh-call count grows by one. -/
theorem requestLoop_401_refresh_ok (cfg : ApiClientConfig)
    (retries attempt tokenGen : Nat) (rest : List FetchOutcome)
    (rs : List Bool) :
    requestLoop cfg true false retries attempt tokenGen
        (.resp 401 :: rest) (true :: rs) =
      { outcome := (requestLoop cfg true false retries attempt
          (tokenGen + 1) rest rs).outcome
        refreshCalls := (requestLoop cfg true false retries attempt
          (tokenGen + 1) rest rs).refreshCalls + 1
        unauthorizedCalled := (requestLoop cfg true false retries attempt
          (tokenGen + 1) rest rs).unauthorizedCalled
        forbiddenCalled := (requestLoop cfg true false retries attempt
          (tokenGen + 1) rest rs).forbiddenCalled
        sentTokens := tokenGen :: (requestLoop cfg true false retries attempt
          (tokenGen + 1) rest rs).sentTokens } := rfl

/-- Claim C5. In the transport layer, with the default client configuration:
a request that omits its retry count gets 3 retries when its method is GET
and 0 otherwise; a request that omits its timeout gets 30000 milliseconds;
a response whose status is neither a success nor in the allow-list (nor a
401 eligible for refresh) is thrown immediately after a single fetch; a
response in the allow-list 408/429/500/502/503/504 is retried while
attempts remain; and timeout and network errors are likewise retried while
attempts remain and thrown as retryable failures on the last attempt. -/
theorem claim_C5_retry_policy :
    (∀ o : ApiRequestConfig, o.retries = none → o.method = "GET" →
        effectiveRetries defaultClientConfig o = 3) ∧
    (∀ o : ApiRequestConfig, o.retries = none → o.method ≠ "GET" →
        effectiveRetries defaultClientConfig o = 0) ∧
    (∀ o : ApiRequestConfig, o.timeout = none →
        effectiveTimeout defaultClientConfig o = 30000) ∧
    (∀ (status attempt tokenGen retries : Nat) (hR sR : Bool)
        (script : List FetchOutcome) (rs : List Bool),
        ¬(200 ≤ status ∧ status < 300) →
        defaultClientConfig.retryStatusCodes.contains status = false →
        (status = 401 → sR = true ∨ hR = false) →
        requestLoop defaultClientConfig hR sR retries attempt tokenGen
            (.resp status :: script) rs =
          { outcome := .failure (createApiError status false)
            refreshCalls := 0, unauthorizedCalled := false
            forbiddenCalled := decide (status = 403)
            sentTokens := [tokenGen] }) ∧
    (∀ (status attempt tokenGen retries : Nat) (hR sR : Bool)
        (script : List FetchOutcome) (rs : List Bool),
        defaultClientConfig.retryStatusCodes.contains status = true →
        attempt ≠ retries →
        requestLoop defaultClientConfig hR sR retries attempt tokenGen
            (.resp status :: script) rs =
          (let res := requestLoop defaultClientConfig hR sR retries
              (attempt + 1) tokenGen script rs
           { res with
              forbiddenCalled := decide (status = 403) || res.forbiddenCalled
              sentTokens := tokenGen :: res.sentTokens })) ∧
    (∀ (tokenGen retries : Nat) (hR sR : Bool)
        (script : List FetchOutcome) (rs : List Bool),
        requestLoop defaultClientConfig hR sR retries retries tokenGen
            (.timedOut :: script) rs =
          { outcome := .failure { status := 408, retryable := true }
            refreshCalls := 0, unauthorizedCalled := false
            forbiddenCalled := false, sentTokens := [tokenGen] } ∧
        requestLoop defaultClientConfig hR sR retries retries tokenGen
            (.netError :: script) rs =
          { outcome := .failure { status := 0, retryable := true }
            refreshCalls := 0, unauthorizedCalled := false
            forbiddenCalled := false, sentTokens := [tokenGen] }) ∧
    (∀ (attempt tokenGen retries : Nat) (hR sR : Bool)
        (script : List FetchOutcome) (rs : List Bool),
        attempt ≠ retries →
        requestLoop defaultClientConfig hR sR retries attempt tokenGen
            (.timedOut :: script) rs =
          (let res := requestLoop defaultClientConfig hR sR retries
              (attempt + 1) tokenGen script rs
           { res with sentTokens := tokenGen :: res.sentTokens }) ∧
        requestLoop defaultClientConfig hR sR retries attempt tokenGen
            (.netError :: script) rs =
          (let res := requestLoop defaultClientConfig hR sR retries
              (attempt + 1) tokenGen script rs
           { res with sentTokens := tokenGen :: res.sentTokens })) := by
  refine ⟨?_, ?_, ?_, ?_, ?_, ?_, ?_⟩
  · intro o hr hm
    simp [effectiveRetries, hr, hm, defaultClientConfig, mkApiClientConfig,
      jsOrNum]
  · intro o hr hm
    simp [effectiveRetries, hr, hm]
  · intro o ht
    simp [effectiveTimeout, ht, defaultClientConfig, mkApiClientConfig,
      jsOrNum]
  · intro status attempt tokenGen retries hR sR script rs h2 hc h401
    have hnot401 : ¬(status = 401 ∧ ¬sR = true ∧ hR = true) := by
      rintro ⟨he, hs, hh⟩
      rcases h401 he with h | h
      · exact hs h
      · rw [h] at hh; exact absurd hh (by simp)
    simp only [requestLoop]
    rw [if_neg h2, if_neg hnot401]
    simp only [hc]
    rw [if_pos (Or.inl (by simp))]
  · intro status attempt tokenGen retries hR sR script rs hc hne
    have hmem : status = 408 ∨ status = 429 ∨ status = 500 ∨ status = 502 ∨
        status = 503 ∨ status = 504 := by
      have hm := List.mem_of_elem_eq_true
        (show List.elem status defaultClientConfig.retryStatusCodes = true
          from hc)
      simpa [defaultClientConfig, mkApiClientConfig, jsOrNum] using hm
    have h2 : ¬(200 ≤ status ∧ status < 300) := by
      rcases hmem with h | h | h | h | h | h <;> omega
    have hnot401 : ¬(status = 401 ∧ ¬sR = true ∧ hR = true) := by
      rintro ⟨he, -, -⟩
      rcases hmem with h | h | h | h | h | h <;> omega
    simp only [requestLoop]
    rw [if_neg h2, if_neg hnot401]
    simp only [hc]
    rw [if_neg]
    rintro (h | h)
    · simp at h
    · exact hne h
  · intro tokenGen retries hR sR script rs
    constructor <;> simp [requestLoop]
  · intro attempt tokenGen retries hR sR script rs hne
    constructor <;> (simp only [requestLoop]; rw [if_neg hne])

/-- Witness for claim C5 at concrete requests: a GET with no explicit
retries, a POST with no explicit retries, a default timeout, an immediate
404 failure, a retried 503, and timeouts on the last and a non-last
attempt. -/
theorem claim_C5_retry_policy_witness :
    effectiveRetries defaultClientConfig { method := "GET" } = 3 ∧
    effectiveRetries defaultClientConfig { method := "POST" } = 0 ∧
    effectiveTimeout defaultClientConfig { method := "GET" } = 30000 ∧
    requestLoop defaultClientConfig false false 3 0 0
        [.resp 404, .resp 200] [] =
      { outcome := .failure (createApiError 404 false), refreshCalls := 0
        unauthorizedCalled := false, forbiddenCalled := decide ((404:Nat) = 403)
        sentTokens := [0] } ∧
    requestLoop defaultClientConfig false false 3 0 0
        [.resp 503, .resp 200] [] =
      (let res := requestLoop defaultClientConfig false false 3 1 0
          [.resp 200] []
       { res with
          forbiddenCalled := decide ((503:Nat) = 403) || res.forbiddenCalled
          sentTokens := 0 :: res.sentTokens }) ∧
    requestLoop defaultClientConfig false false 3 3 0 [.timedOut] [] =
      { outcome := .failure { status := 408, retryable := true }
        refreshCalls := 0, unauthorizedCalled := false
        forbiddenCalled := false, sentTokens := [0] } ∧
    requestLoop defaultClientConfig false false 3 0 0
        [.timedOut, .resp 200] [] =
      (let res := requestLoop defaultClientConfig false false 3 1 0
          [.resp 200] []
       { res with sentTokens := 0 :: res.sentTokens }) :=
  ⟨claim_C5_retry_policy.1 { method := "GET" } rfl rfl,
    claim_C5_retry_policy.2.1 { method := "POST" } rfl (by decide),
    claim_C5_retry_policy.2.2.1 { method := "GET" } rfl,
    claim_C5_retry_policy.2.2.2.1 404 0 0 3 false false [.resp 200] []
      (by omega) (by decide) (by omega),
    claim_C5_retry_policy.2.2.2.2.1 503 0 0 3 false false [.resp 200] []
      (by decide) (by decide),
    (claim_C5_retry_policy.2.2.2.2.2.1 0 3 false false [] []).1,
    (claim_C5_retry_policy.2.2.2.2.2.2 0 0 3 false false [.resp 200] []
      (by decide)).1⟩

/-- Claim C2, amended. On a 401 with a configured refresher and no opt-out,
the client performs a token refresh and, when it succeeds, replays the
request once with the refreshed credential without consuming a retry
attempt (a request whose replay receives 401 again refreshes again, so the
refresh is once per 401 received rather than once per request); concurrent
requests that observe a 401 while a refresh is already in flight await that
single refresh rather than starting their own; and a failed refresh fires
the unauthorized callback and surfaces the 401. -/
theorem claim_C2_token_refresh_amended :
    (∀ k : Nat, 1 ≤ k →
        (enterAll k { isRefreshing := false, refreshCalls := 0 }).refreshCalls
          = 1) ∧
    (∀ (status : Nat) (script : List FetchOutcome) (rs : List Bool)
        (retries attempt tokenGen : Nat),
        200 ≤ status → status < 300 →
        requestLoop defaultClientConfig true false retries attempt tokenGen
            (.resp 401 :: .resp status :: script) (true :: rs) =
          { outcome := .success status, refreshCalls := 1
            unauthorizedCalled := false, forbiddenCalled := false
            sentTokens := [tokenGen, tokenGen + 1] }) ∧
    (∀ (script : List FetchOutcome) (rs : List Bool)
        (retries attempt tokenGen : Nat),
        requestLoop defaultClientConfig true false retries attempt tokenGen
            (.resp 401 :: script) (false :: rs) =
          { outcome := .failure (createApiError 401 false), refreshCalls := 1
            unauthorizedCalled := true, forbiddenCalled := false
            sentTokens := [tokenGen] }) := by
  refine ⟨?_, ?_, ?_⟩
  · intro k hk
    match k, hk with
    | j + 1, _ =>
      have h1 : enterAll (j + 1) { isRefreshing := false, refreshCalls := 0 }
          = enterAll j { isRefreshing := true, refreshCalls := 1 } := rfl
      rw [h1, enterAll_refreshing]
  · intro status script rs retries attempt tokenGen h1 h2
    have hres : requestLoop defaultClientConfig true false retries attempt
        (tokenGen + 1) (.resp status :: script) rs =
        { outcome := .success status, refreshCalls := 0
          unauthorizedCalled := false, forbiddenCalled := false
          sentTokens := [tokenGen + 1] } := by
      simp only [requestLoop]
      rw [if_pos ⟨h1, h2⟩]
    rw [requestLoop_401_refresh_ok, hres]
  · intro script rs retries attempt tokenGen
    rfl

/-- Witness for claim C2 with five concurrent 401 observers, a refreshed
and replayed request that then succeeds, and a failed refresh. -/
theorem claim_C2_token_refresh_amended_witness :
    (enterAll 5 { isRefreshing := false, refreshCalls := 0 }).refreshCalls
        = 1 ∧
    requestLoop defaultClientConfig true false 3 0 0
        [.resp 401, .resp 200] [true] =
      { outcome := .success 200, refreshCalls := 1
        unauthorizedCalled := false, forbiddenCalled := false
        sentTokens := [0, 1] } ∧
    requestLoop defaultClientConfig true false 3 0 0 [.resp 401] [false] =
      { outcome := .failure (createApiError 401 false), refreshCalls := 1
        unauthorizedCalled := true, forbiddenCalled := false
        sentTokens := [0] } :=
  ⟨claim_C2_token_refresh_amended.1 5 (by omega),
    claim_C2_token_refresh_amended.2.1 200 [] [] 3 0 0 (by omega) (by omega),
    claim_C2_token_refresh_amended.2.2 [] [] 3 0 0⟩

/-- Claim C2, counterexample to the statement as written. A request that
receives 401 twice in a row, with the refresher succeeding both times,
performs two token refreshes and replays the request twice (three fetches
with token generations 0, 1 and 2) - not exactly one refresh and one
retry. -/
theorem claim_C2_counterexample :
    (runRequest defaultClientConfig { method := "GET" } true
        [.resp 401, .resp 401, .resp 200] [true, true]).refreshCalls = 2 ∧
    (runRequest defaultClientConfig { method := "GET" } true
        [.resp 401, .resp 401, .resp 200] [true, true]).sentTokens
        = [0, 1, 2] ∧
    ¬((runRequest defaultClientConfig { method := "GET" } true
        [.resp 401, .resp 401, .resp 200] [true, true]).refreshCalls = 1)
    := by
  refine ⟨by decide, by decide, by decide⟩

/-- Claim C4, amended. The registration screen's client-side validateForm
checks exactly: nonempty first and last name, nonempty email matching the
email pattern, nonempty password of length at least 8, and a confirmation
equal to the password - and handleSubmit sends the register request exactly
when all of these hold. No uppercase-letter, digit or symbol complexity
check is performed client-side (the server-side policy is not mirrored
beyond the minimum length). -/
theorem claim_C4_register_validation_amended :
    ∀ f : RegisterForm,
      handleSubmitSendsRegister f =
        (!(decide (f.firstName = "")) && !(decide (f.lastName = "")) &&
         !(decide (f.email = "")) && emailRegexTest f.email &&
         !(decide (f.password = "")) &&
         !(decide (f.password.length < 8)) &&
         decide (f.password = f.confirmPassword)) := by
  intro f
  unfold handleSubmitSendsRegister validateForm validateFormErrors
  by_cases h1 : f.firstName = "" <;> by_cases h2 : f.lastName = "" <;>
    by_cases h3 : f.email = "" <;>
    by_cases h4 : emailRegexTest f.email = true <;>
    by_cases h5 : f.password = "" <;>
    by_cases h6 : f.password.length < 8 <;>
    by_cases h7 : f.password = f.confirmPassword <;>
    simp [h1, h2, h3, h4, h5, h6, h7] <;>
    (by_cases h8 : f.confirmPassword = "" <;>
      by_cases h9 : f.confirmPassword.length < 8 <;> simp [h8, h9])

/-- Claim C4, counterexample to the statement as written. A form whose
password is eight lowercase letters - no uppercase letter, no digit, no
symbol - passes validateForm, and handleSubmit sends the register request,
where the claim requires submission to be blocked for every form state
failing the complexity checks. -/
theorem claim_C4_counterexample :
    handleSubmitSendsRegister
      { email := "a@b.c", password := "abcdefgh"
        confirmPassword := "abcdefgh"
        firstName := "Jean", lastName := "Dupont" } = true ∧
    ("abcdefgh".toList.all (fun c => decide ('a' ≤ c) && decide (c ≤ 'z')))
        = true ∧
    8 ≤ ("abcdefgh" : String).length :=
  ⟨by decide, by decide, by decide⟩

/-- Lookup after a replacing map hits the replacement when the key was
present. -/
theorem getQueryData_map_replace_same
    (c : List (QueryKey × AvailabilityData)) (k : QueryKey)
    (v : AvailabilityData)
    (h : (c.find? (fun p => decide (p.1 = k))).isSome = true) :
    getQueryData (c.map (fun p => if p.1 = k then (k, v) else p)) k =
      some v := by
  induction c with
  | nil => simp [List.find?] at h
  | cons p t ih =>
    by_cases hp : p.1 = k
    · simp [getQueryData, List.find?_cons, hp]
    · simp only [List.find?_cons, show decide (p.1 = k) = false by simp [hp]]
        at h
      simp only [getQueryData, List.map_cons, List.find?_cons, if_neg hp,
        show decide (p.1 = k) = false by simp [hp]]
      exact ih h

/-- Lookup of a different key is unchanged by a replacing map. -/
theorem getQueryData_map_replace_other
    (c : List (QueryKey × AvailabilityData)) (k k' : QueryKey)
    (v : AvailabilityData) (h : k' ≠ k) :
    getQueryData (c.map (fun p => if p.1 = k then (k, v) else p)) k' =
      getQueryData c k' := by
  induction c with
  | nil => rfl
  | cons p t ih =>
    by_cases hp : p.1 = k
    · simp only [getQueryData, List.map_cons, List.find?_cons, if_pos hp]
      have h1 : decide ((k, v).1 = k') = false := by simp [Ne.symm h]
      have h2 : decide (p.1 = k') = false := by simp [hp, Ne.symm h]
      rw [h1, h2]
      exact ih
    · simp only [getQueryData, List.map_cons, List.find?_cons, if_neg hp]
      by_cases hk : p.1 = k'
      · simp [hk]
      · simp only [show decide (p.1 = k') = false by simp [hk]]
        exact ih

/-- Lookup of the written key after setQueryData yields the written
value. -/
theorem getQueryData_setQueryData_same
    (c : List (QueryKey × AvailabilityData)) (k : QueryKey)
    (v : AvailabilityData) :
    getQueryData (setQueryData c k v) k = some v := by
  unfold setQueryData
  by_cases h : (c.find? (fun p => decide (p.1 = k))).isSome = true
  · rw [if_pos h]
    exact getQueryData_map_replace_same c k v h
  · rw [if_neg h]
    simp [getQueryData, List.find?_cons]

/-- Lookup of any other key is unchanged by setQueryData. -/
theorem getQueryData_setQueryData_other
    (c : List (QueryKey × AvailabilityData)) (k k' : QueryKey)
    (v : AvailabilityData) (h : k' ≠ k) :
    getQueryData (setQueryData c k v) k' = getQueryData c k' := by
  unfold setQueryData
  by_cases hf : (c.find? (fun p => decide (p.1 = k))).isSome = true
  · rw [if_pos hf]
    exact getQueryData_map_replace_other c k k' v h
  · rw [if_neg hf]
    simp [getQueryData, List.find?_cons, Ne.symm h]

/-- Claim C6, amended. On submission the member's my-availabilities cache
entry for the submitted month immediately carries the submitted dates
(whether or not an entry existed); when the server rejects the change and a
pre-mutation cache entry existed, the whole cache is restored to its
pre-mutation content - but when no entry existed, the rollback does not
fire and the optimistic placeholder entry remains until refetch; and after
the request settles, in both the success and the failure case, exactly the
member's own and the department's availability keys for that month are
appended to the invalidated set. -/
theorem claim_C6_optimistic_update_amended :
    (∀ (st : QueryCacheState) (dep : String) (d : UpdatePayload),
      (getQueryData (onMutateOptimistic st dep d).1.cache
          (myAvailabilitiesKey dep d.year d.month)).map
        (·.unavailableDates) = some d.unavailableDates) ∧
    (∀ (st : QueryCacheState) (dep : String) (d : UpdatePayload)
        (prev : AvailabilityData),
      getQueryData st.cache (myAvailabilitiesKey dep d.year d.month)
          = some prev →
      ∀ k : QueryKey,
        getQueryData (runUpdateMyAvailabilities st dep d true).cache k
          = getQueryData st.cache k) ∧
    (∀ (st : QueryCacheState) (dep : String) (d : UpdatePayload),
      getQueryData st.cache (myAvailabilitiesKey dep d.year d.month) = none →
      getQueryData (runUpdateMyAvailabilities st dep d true).cache
          (myAvailabilitiesKey dep d.year d.month) =
        some { memberId := "", memberName := "", year := d.year
               month := d.month
               unavailableDates := d.unavailableDates }) ∧
    (∀ (st : QueryCacheState) (dep : String) (d : UpdatePayload)
        (rejected : Bool),
      (runUpdateMyAvailabilities st dep d rejected).invalidated =
        st.invalidated ++ [myAvailabilitiesKey dep d.year d.month,
          departmentAvailabilitiesKey dep (monthKeyStr d.year d.month)]) := by
  refine ⟨?_, ?_, ?_, ?_⟩
  · intro st dep d
    unfold onMutateOptimistic
    cases hprev : getQueryData st.cache
        (myAvailabilitiesKey dep d.year d.month) with
    | none => simp [hprev, getQueryData_setQueryData_same]
    | some old => simp [hprev, getQueryData_setQueryData_same]
  · intro st dep d prev hprev k
    have hcache : (runUpdateMyAvailabilities st dep d true).cache =
        setQueryData
          (setQueryData st.cache (myAvailabilitiesKey dep d.year d.month)
            { prev with unavailableDates := d.unavailableDates })
          (myAvailabilitiesKey dep d.year d.month) prev := by
      simp [runUpdateMyAvailabilities, onMutateOptimistic, onErrorRollback,
        onSettledInvalidate, invalidateQueries, hprev]
    rw [hcache]
    by_cases hk : k = myAvailabilitiesKey dep d.year d.month
    · rw [hk, getQueryData_setQueryData_same, hprev]
    · rw [getQueryData_setQueryData_other _ _ _ _ hk,
        getQueryData_setQueryData_other _ _ _ _ hk]
  · intro st dep d hprev
    have hcache : (runUpdateMyAvailabilities st dep d true).cache =
        setQueryData st.cache (myAvailabilitiesKey dep d.year d.month)
          { memberId := "", memberName := "", year := d.year
            month := d.month
            unavailableDates := d.unavailableDates } := by
      simp [runUpdateMyAvailabilities, onMutateOptimistic, onErrorRollback,
        onSettledInvalidate, invalidateQueries, hprev]
    rw [hcache, getQueryData_setQueryData_same]
  · intro st dep d rejected
    cases rejected with
    | false =>
      simp [runUpdateMyAvailabilities, onMutateOptimistic,
        onSettledInvalidate, invalidateQueries, myAvailabilitiesKey]
    | true =>
      cases hprev : getQueryData st.cache
          (myAvailabilitiesKey dep d.year d.month) with
      | none =>
        simp only [myAvailabilitiesKey] at hprev
        simp [runUpdateMyAvailabilities, onMutateOptimistic, onErrorRollback,
          onSettledInvalidate, invalidateQueries, hprev, myAvailabilitiesKey]
      | some old =>
        simp only [myAvailabilitiesKey] at hprev
        simp [runUpdateMyAvailabilities, onMutateOptimistic, onErrorRollback,
          onSettledInvalidate, invalidateQueries, hprev, myAvailabilitiesKey]

/-- The concrete availability payload used in the claim C6 witness and
counterexample. -/
def c6Payload : UpdatePayload :=
  { year := 2025
    month := 3
    unavailableDates := [{ date := "2025-03-07", reason := none
                           isAllDay := true }] }

/-- A pre-mutation cache entry for the claim C6 witness. -/
def c6PrevEntry : AvailabilityData :=
  { memberId := "m1"
    memberName := "Jean"
    year := 2025
    month := 3
    unavailableDates := [] }

/-- A cache state already holding the member's entry. -/
def c6SeededState : QueryCacheState :=
  { cache := [(myAvailabilitiesKey "d1" 2025 3, c6PrevEntry)]
    invalidated := [] }

/-- A cache state with no entry for the member. -/
def c6EmptyState : QueryCacheState := { cache := [], invalidated := [] }

/-- Witness for claim C6 at concrete cache states: optimistic write,
rollback with a seeded entry, persistence of the placeholder without one,
and the two invalidations. -/
theorem claim_C6_optimistic_update_amended_witness :
    (getQueryData (onMutateOptimistic c6EmptyState "d1" c6Payload).1.cache
        (myAvailabilitiesKey "d1" c6Payload.year c6Payload.month)).map
      (·.unavailableDates) = some c6Payload.unavailableDates ∧
    getQueryData c6SeededState.cache
        (myAvailabilitiesKey "d1" c6Payload.year c6Payload.month)
      = some c6PrevEntry ∧
    getQueryData
        (runUpdateMyAvailabilities c6SeededState "d1" c6Payload true).cache
        (myAvailabilitiesKey "d1" c6Payload.year c6Payload.month)
      = getQueryData c6SeededState.cache
        (myAvailabilitiesKey "d1" c6Payload.year c6Payload.month) ∧
    getQueryData c6EmptyState.cache
        (myAvailabilitiesKey "d1" c6Payload.year c6Payload.month) = none ∧
    getQueryData
        (runUpdateMyAvailabilities c6EmptyState "d1" c6Payload true).cache
        (myAvailabilitiesKey "d1" c6Payload.year c6Payload.month)
      = some { memberId := "", memberName := "", year := c6Payload.year
               month := c6Payload.month
               unavailableDates := c6Payload.unavailableDates } ∧
    (runUpdateMyAvailabilities c6SeededState "d1" c6Payload false).invalidated
      = c6SeededState.invalidated ++
        [myAvailabilitiesKey "d1" c6Payload.year c6Payload.month,
          departmentAvailabilitiesKey "d1"
            (monthKeyStr c6Payload.year c6Payload.month)] :=
  ⟨claim_C6_optimistic_update_amended.1 c6EmptyState "d1" c6Payload,
    by decide,
    claim_C6_optimistic_update_amended.2.1 c6SeededState "d1" c6Payload
      c6PrevEntry (by decide)
      (myAvailabilitiesKey "d1" c6Payload.year c6Payload.month),
    by decide,
    claim_C6_optimistic_update_amended.2.2.1 c6EmptyState "d1" c6Payload
      (by decide),
    claim_C6_optimistic_update_amended.2.2.2 c6SeededState "d1" c6Payload
      false⟩

/-- Claim C6, counterexample to the statement as written. When no cache
entry existed before the mutation (the snapshot is undefined), a rejected
mutation is not rolled back to the pre-mutation state: the optimistic
placeholder entry is still present after the error path ran, whereas the
claim requires the cache entry to be rolled back to its pre-mutation
snapshot (absent). -/
theorem claim_C6_counterexample :
    getQueryData c6EmptyState.cache (myAvailabilitiesKey "d1" 2025 3)
        = none ∧
    getQueryData
        (runUpdateMyAvailabilities c6EmptyState "d1" c6Payload true).cache
        (myAvailabilitiesKey "d1" 2025 3) ≠ none :=
  ⟨by decide, by decide⟩

/-- Decimal digit characters have code points 48 through 57. -/
theorem natDigitChar_toNat (m : Nat) (h : m < 10) :
    (natDigitChar m).toNat = 48 + m := by
  interval_cases m <;> decide

/-- Decimal digit characters satisfy the digit test. -/
theorem natDigitChar_isDigit (m : Nat) (h : m < 10) :
    isDigitChar (natDigitChar m) = true := by
  interval_cases m <;> decide

/-- Appending a final digit multiplies the value by ten and adds the
digit. -/
theorem digitsToNat_append_digit (xs : List Char) (c : Char) :
    digitsToNat (xs ++ [c]) = 10 * digitsToNat xs + (c.toNat - 48) := by
  simp [digitsToNat, List.foldl_append]
  omega

/-- The fueled digit expansion parses back to its value when the fuel
dominates the value. -/
theorem natToDigitsF_correct : ∀ (fuel n : Nat), n < fuel →
    digitsToNat (natToDigitsF fuel n) = n := by
  intro fuel
  induction fuel with
  | zero => intro n h; omega
  | succ f ih =>
    intro n h
    by_cases h10 : n < 10
    · simp only [natToDigitsF, if_pos h10]
      simp [digitsToNat, natDigitChar_toNat n h10]
    · simp only [natToDigitsF, if_neg h10]
      rw [digitsToNat_append_digit, ih (n / 10) (by omega),
        natDigitChar_toNat _ (Nat.mod_lt _ (by omega))]
      omega

/-- Every character of the fueled digit expansion is a digit. -/
theorem natToDigitsF_all_digits : ∀ (fuel n : Nat) (c : Char),
    c ∈ natToDigitsF fuel n → isDigitChar c = true := by
  intro fuel
  induction fuel with
  | zero => intro n c h; simp [natToDigitsF] at h
  | succ f ih =>
    intro n c h
    by_cases h10 : n < 10
    · simp only [natToDigitsF, if_pos h10, List.mem_singleton] at h
      rw [h]; exact natDigitChar_isDigit n h10
    · simp only [natToDigitsF, if_neg h10, List.mem_append,
        List.mem_singleton] at h
      rcases h with h | h
      · exact ih (n / 10) c h
      · rw [h]; exact natDigitChar_isDigit _ (Nat.mod_lt _ (by omega))

/-- Round trip of the decimal rendering. -/
theorem natToDigits_correct (n : Nat) : digitsToNat (natToDigits n) = n :=
  natToDigitsF_correct (n + 1) n (Nat.lt_succ_self n)

/-- Characters of the decimal rendering are digits. -/
theorem natToDigits_all_digits (n : Nat) :
    ∀ c ∈ natToDigits n, isDigitChar c = true :=
  fun c h => natToDigitsF_all_digits (n + 1) n c h

/-- Splitting a separator-free list yields one group. -/
theorem splitOnChar_of_not_mem (sep : Char) (cs : List Char)
    (h : ∀ c ∈ cs, c ≠ sep) : splitOnChar sep cs = [cs] := by
  induction cs with
  | nil => rfl
  | cons c rest ih =>
    have hc : c ≠ sep := h c (List.mem_cons_self c rest)
    have hrest := ih (fun x hx => h x (List.mem_cons_of_mem c hx))
    simp [splitOnChar, if_neg hc, hrest]

/-- Splitting around one separator after a separator-free block peels the
block off. -/
theorem splitOnChar_append (sep : Char) (xs ys : List Char)
    (h : ∀ c ∈ xs, c ≠ sep) :
    splitOnChar sep (xs ++ sep :: ys) = xs :: splitOnChar sep ys := by
  induction xs with
  | nil => simp [splitOnChar]
  | cons c rest ih =>
    have hc : c ≠ sep := h c (List.mem_cons_self c rest)
    have hrest := ih (fun x hx => h x (List.mem_cons_of_mem c hx))
    simp only [List.cons_append, splitOnChar, if_neg hc, List.append_eq,
      hrest]

/-- The Number conversion on a digit list yields its value. -/
theorem jsNumberL_of_digits (cs : List Char)
    (h : ∀ c ∈ cs, isDigitChar c = true) :
    jsNumberL cs = some (Int.ofNat (digitsToNat cs)) := by
  cases cs with
  | nil => simp [jsNumberL, digitsToNat]
  | cons c rest =>
    have hall : (c :: rest).all isDigitChar = true := by
      rw [List.all_eq_true]; exact h
    simp [jsNumberL, hall]

/-- Leading zeros do not change the parsed value. -/
theorem digitsToNat_replicate_zero (k : Nat) (cs : List Char) :
    digitsToNat (List.replicate k '0' ++ cs) = digitsToNat cs := by
  induction k with
  | zero => simp
  | succ j ih =>
    have hsplit : List.replicate (j + 1) '0' ++ cs
        = '0' :: (List.replicate j '0' ++ cs) := by
      simp [List.replicate_succ]
    rw [hsplit]
    have h0 : digitsToNat ('0' :: (List.replicate j '0' ++ cs))
        = digitsToNat (List.replicate j '0' ++ cs) := by
      simp [digitsToNat]
    rw [h0, ih]

/-- A digit character is not a dash. -/
theorem isDigitChar_ne_dash (c : Char) (h : isDigitChar c = true) :
    c ≠ '-' := by
  intro he
  rw [he] at h
  simp [isDigitChar] at h

/-- Data view of padStart2 on a raw character list. -/
theorem padStart2_data (cs : List Char) :
    (padStart2 (String.mk cs)).data
      = List.replicate (2 - cs.length) '0' ++ cs := by
  unfold padStart2
  by_cases h : 2 ≤ (String.mk cs).length
  · rw [if_pos h]
    have hz : 2 - cs.length = 0 := Nat.sub_eq_zero_of_le h
    simp [hz]
  · rw [if_neg h]
    rfl

/-- Data view of the decimal rendering of a nonnegative integer. -/
theorem intToString_data_of_nonneg (i : Int) (h : 0 ≤ i) :
    (intToString i).data = natToDigits i.toNat := by
  unfold intToString
  rw [if_neg (by omega)]
  rfl

/-- Character-list view of formatDateISO for a nonnegative date: digits of
the year, a dash, the padded digits of the month, a dash, the padded digits
of the day. -/
theorem formatDateISO_data (d : CivilDate) (hd : dateNonneg d) :
    (formatDateISO d).data =
      natToDigits d.year.toNat ++
        '-' :: ((List.replicate (2 - (natToDigits d.month.toNat).length) '0'
            ++ natToDigits d.month.toNat) ++
          '-' :: (List.replicate (2 - (natToDigits d.day.toNat).length) '0'
            ++ natToDigits d.day.toNat)) := by
  obtain ⟨hy, hm, hdd⟩ := hd
  unfold formatDateISO
  rw [String.data_append, String.data_append, String.data_append,
    String.data_append]
  rw [intToString_data_of_nonneg _ hy]
  have hm2 : (padStart2 (intToString d.month)).data
      = List.replicate (2 - (natToDigits d.month.toNat).length) '0'
        ++ natToDigits d.month.toNat := by
    have hmk : intToString d.month = String.mk (natToDigits d.month.toNat)
        := by
      unfold intToString natToString
      rw [if_neg (by omega)]
    rw [hmk, padStart2_data]
  have hd2 : (padStart2 (intToString d.day)).data
      = List.replicate (2 - (natToDigits d.day.toNat).length) '0'
        ++ natToDigits d.day.toNat := by
    have hmk : intToString d.day = String.mk (natToDigits d.day.toNat) := by
      unfold intToString natToString
      rw [if_neg (by omega)]
    rw [hmk, padStart2_data]
  rw [hm2, hd2]
  show natToDigits d.year.toNat ++ ['-'] ++ _ ++ ['-'] ++ _ = _
  simp [List.append_assoc]

/-- The per-date test of selectedCount, applied to a formatted nonnegative
date, is exactly the year-and-month comparison on the date itself. -/
theorem monthMatches_formatDateISO (d : CivilDate) (y m : Int)
    (hd : dateNonneg d) :
    monthMatches (formatDateISO d) y m
      = (decide (d.year = y) && decide (d.month = m)) := by
  obtain ⟨hy, hm, hdd⟩ := hd
  have hydig := natToDigits_all_digits d.year.toNat
  have hmdig : ∀ c ∈ List.replicate (2 - (natToDigits d.month.toNat).length)
      '0' ++ natToDigits d.month.toNat, isDigitChar c = true := by
    intro c hc
    rcases List.mem_append.mp hc with h | h
    · rw [List.eq_of_mem_replicate h]; decide
    · exact natToDigits_all_digits _ c h
  have hddig : ∀ c ∈ List.replicate (2 - (natToDigits d.day.toNat).length)
      '0' ++ natToDigits d.day.toNat, isDigitChar c = true := by
    intro c hc
    rcases List.mem_append.mp hc with h | h
    · rw [List.eq_of_mem_replicate h]; decide
    · exact natToDigits_all_digits _ c h
  have hsplit : splitOnChar '-' (formatDateISO d).toList =
      [natToDigits d.year.toNat,
        List.replicate (2 - (natToDigits d.month.toNat).length) '0'
          ++ natToDigits d.month.toNat,
        List.replicate (2 - (natToDigits d.day.toNat).length) '0'
          ++ natToDigits d.day.toNat] := by
    show splitOnChar '-' (formatDateISO d).data = _
    rw [formatDateISO_data d ⟨hy, hm, hdd⟩]
    rw [splitOnChar_append '-' _ _
      (fun c hc => isDigitChar_ne_dash c (hydig c hc))]
    rw [splitOnChar_append '-' _ _
      (fun c hc => isDigitChar_ne_dash c (hmdig c hc))]
    rw [splitOnChar_of_not_mem '-' _
      (fun c hc => isDigitChar_ne_dash c (hddig c hc))]
  unfold monthMatches
  rw [hsplit]
  show (decide (jsNumberL (natToDigits d.year.toNat) = some y) &&
    decide (jsNumberL (List.replicate
      (2 - (natToDigits d.month.toNat).length) '0'
      ++ natToDigits d.month.toNat) = some m)) = _
  rw [jsNumberL_of_digits _ hydig, jsNumberL_of_digits _ hmdig]
  rw [digitsToNat_replicate_zero, natToDigits_correct, natToDigits_correct]
  have h1 : (Int.ofNat d.year.toNat) = d.year := Int.toNat_of_nonneg hy
  have h2 : (Int.ofNat d.month.toNat) = d.month := Int.toNat_of_nonneg hm
  rw [h1, h2]
  congr 1 <;> exact decide_eq_decide.mpr (by simp)

/-- The counting fold of selectedCount agrees with countP. -/
theorem selectedCount_eq_countP (sel : List String) (y m : Int) :
    selectedCount sel y m = sel.countP (fun ds => monthMatches ds y m) := by
  suffices h : ∀ (l : List String) (n : Nat),
      List.foldl (fun count ds =>
        if monthMatches ds y m then count + 1 else count) n l
        = n + l.countP (fun ds => monthMatches ds y m) by
    simpa [selectedCount] using h sel 0
  intro l
  induction l with
  | nil => intro n; simp
  | cons s t ih =>
    intro n
    by_cases hms : monthMatches s y m <;>
      simp [List.countP_cons, hms, ih] <;> omega

/-- Claim C7. In the availability calendar: every grid cell belonging to an
adjacent month is disabled; clicking a disabled or adjacent-month cell, or
keyboard-activating it with Enter or Space (or pressing any other key),
never changes the selection set; and the reported count over a selection of
formatted dates equals the number of selected dates whose year and month
are exactly the displayed ones - dates spilling over from adjacent months
are excluded. -/
theorem claim_C7_calendar :
    (∀ (year month : Int) (sel : List String) (today : CivilDate)
        (ddl : Bool) (d : DayInfo),
      d ∈ calendarDays year month sel today ddl →
      d.isCurrentMonth = false → d.isDisabled = true) ∧
    (∀ (day : DayInfo) (sel : List String),
      day.isDisabled = true ∨ day.isCurrentMonth = false →
      handleDayClick day sel = sel ∧
      ∀ key : String, handleKeyDown key day sel = sel) ∧
    (∀ (dates : List CivilDate) (year month : Int),
      (∀ d ∈ dates, dateNonneg d) →
      selectedCount (dates.map formatDateISO) year month =
        (dates.filter (fun d => decide (d.year = year) &&
          decide (d.month = month))).length) := by
  refine ⟨?_, ?_, ?_⟩
  · intro year month sel today ddl d hmem hcur
    simp only [calendarDays, List.mem_append, List.mem_map,
      List.mem_range] at hmem
    rcases hmem with (⟨j, hj, rfl⟩ | ⟨k, hk, rfl⟩) | ⟨k, hk, rfl⟩
    · rfl
    · simp at hcur
    · rfl
  · intro day sel h
    have hc : (day.isDisabled || !day.isCurrentMonth) = true := by
      rcases h with h | h <;> simp [h]
    have hclick : handleDayClick day sel = sel := by
      unfold handleDayClick
      rw [if_pos hc]
    refine ⟨hclick, ?_⟩
    intro key
    unfold handleKeyDown
    by_cases hk : (key == "Enter" || key == " ") = true
    · rw [if_pos hk]
      exact hclick
    · rw [if_neg hk]
  · intro dates year month h
    rw [selectedCount_eq_countP, List.countP_map,
      ← List.countP_eq_length_filter]
    induction dates with
    | nil => rfl
    | cons d t ih =>
      have hd := h d (List.mem_cons_self d t)
      have ht := fun x hx => h x (List.mem_cons_of_mem d hx)
      simp only [List.countP_cons, Function.comp_apply,
        monthMatches_formatDateISO d year month hd, ih ht]

/-- The spillover cell of October 2025 used in the claim C7 witness: the
grid for October 2025 starts with Monday September 29. -/
def c7Day : DayInfo :=
  { date := { year := 2025, month := 9, day := 29 }
    dayOfMonth := 29
    dateString := "2025-09-29"
    isCurrentMonth := false
    isPast := true
    isToday := false
    isSelected := true
    isDisabled := true }

/-- The selection used in the claim C7 witness. -/
def c7Selected : List String := ["2025-09-29", "2025-10-03"]

/-- The selected dates used in the claim C7 witness count. -/
def c7Dates : List CivilDate :=
  [{ year := 2025, month := 10, day := 3 },
    { year := 2025, month := 9, day := 29 },
    { year := 2025, month := 11, day := 1 }]

/-- Witness for claim C7 on the October 2025 grid viewed on the 15th: the
September 29 spillover cell is in the grid, marked as adjacent-month and
disabled, clicking or keyboard-activating it leaves the selection as is,
and the count over three selected dates (one in the displayed month, one
September spillover, one November spillover) is the one-element filter. -/
theorem claim_C7_calendar_witness :
    c7Day ∈ calendarDays 2025 10 c7Selected
        { year := 2025, month := 10, day := 15 } false ∧
    c7Day.isCurrentMonth = false ∧
    c7Day.isDisabled = true ∧
    handleDayClick c7Day c7Selected = c7Selected ∧
    handleKeyDown "Enter" c7Day c7Selected = c7Selected ∧
    handleKeyDown " " c7Day c7Selected = c7Selected ∧
    c7Dates.all (fun d => decide (dateNonneg d)) = true ∧
    selectedCount (c7Dates.map formatDateISO) 2025 10 =
      (c7Dates.filter (fun d => decide (d.year = 2025) &&
        decide (d.month = 10))).length :=
  ⟨by decide, by decide,
    claim_C7_calendar.1 2025 10 c7Selected
      { year := 2025, month := 10, day := 15 } false c7Day (by decide)
      (by decide),
    (claim_C7_calendar.2.1 c7Day c7Selected (Or.inl (by decide))).1,
    (claim_C7_calendar.2.1 c7Day c7Selected (Or.inl (by decide))).2 "Enter",
    (claim_C7_calendar.2.1 c7Day c7Selected (Or.inl (by decide))).2 " ",
    by decide,
    claim_C7_calendar.2.2 c7Dates 2025 10 (by decide)⟩
